import Mathlib

/-!
Verification of `src/backend/presentation_manager.py` (TANSAM4.0).

Shallow embedding conventions:
* A detected screen dict becomes the structure `Screen`; one presentation
  request becomes `Presentation` (an absent `url` key and an empty `url`
  string behave identically under `if not url`, so both are modelled as
  `url = ""`).
* The outside world (browser spawning, wmctrl/xdotool positioning, and
  `random.randint`) is an explicit environment `Env`; successive calls are
  indexed by the presentation index / call counter, matching the strictly
  sequential control flow of the source.
* Python exceptions that can escape a function are modelled with
  `Except String`; a caught exception is handled exactly where the source
  catches it.  The planner additionally returns the list of launch calls it
  issued (`LaunchEvent`), the effects the source performs via
  `launch_presentation_window` / `launch_presentation_window_at_position`.
* The `system` is taken to be `"Linux"` (the platform whose launch path,
  `_launch_linux`, the source fully implements); the macOS/Windows paths
  have the same return-value structure.
-/

/-- A screen dict as produced by `ScreenManager._detect_screens` (lines 61-71):
`{"id", "x", "y", "width", "height", "primary", "name"?}`. The `name` key is
never read by the planner or launcher, so it is omitted. -/
structure Screen where
  id : Nat
  x : Int
  y : Int
  width : Nat
  height : Nat
  primary : Bool := false
  deriving Repr, DecidableEq

/-- One entry of `config["presentations"]` (lines 700-707).  `url = ""` models
both a missing and an empty `url` (both falsy at lines 743, 797, 825);
`browser` defaults to `"chrome"` via `presentation.get("browser", "chrome")`. -/
structure Presentation where
  url : String
  browser : String := "chrome"
  deriving Repr, DecidableEq

/-- Default used for `List.getD` in specification-side helpers; every reachable
access is proved in range, so this value never surfaces. -/
def dScreen : Screen := { id := 0, x := 0, y := 0, width := 0, height := 0 }

/-- Default `Presentation` for `List.getD` in specification-side helpers. -/
def dPres : Presentation := { url := "" }

/-- One element of `result["windows"]` (lines 753-754, 806-807, 839-848).
The three append sites emit dicts with different key sets, modelled with
`Option` fields: the `n ≤ m` branch omits all split keys, the whole-screen
overflow path sets `split = False`, the slicing path sets all three. -/
structure WindowEntry where
  screen_id : Nat
  pid : Nat
  url : String
  split : Option Bool := none
  split_index : Option Nat := none
  split_total : Option Nat := none
  deriving Repr, DecidableEq

/-- The dict returned by `launch_presentations` (lines 720-725). -/
structure Report where
  success : Bool
  windows : List WindowEntry
  errors : List String
  screens : List Screen
  deriving Repr, DecidableEq

/-- One window-launching call issued by the planner, labelled with the index
of the presentation that caused it.  `window` records a
`launch_presentation_window(url, screen_id, browser)` call together with the
screen dict the launcher resolves (the full rectangle handed to
`_launch_linux`); `windowAt` records a
`launch_presentation_window_at_position(url, x, y, width, height, browser)`
call. -/
inductive LaunchEvent where
  | window (reqIndex : Nat) (url : String) (screen_id : Nat) (browser : String)
      (target : Screen)
  | windowAt (reqIndex : Nat) (url : String) (x y : Int) (width height : Nat)
      (browser : String)
  deriving Repr, DecidableEq

/-- The presentation index recorded on a launch event. -/
def LaunchEvent.reqIndex : LaunchEvent → Nat
  | .window i _ _ _ _ => i
  | .windowAt i _ _ _ _ _ _ => i

/-- Environment of one `launch_presentations` run: the OS responses to the
sequential external calls.  `spawn i` is the outcome of the `subprocess.Popen`
performed for presentation `i` (`none` = `Popen` raises, `some pid` = process
started); `wmctrlRaises i` / `xdotoolRaises i` say whether the positioning
tool chains raise for that launch; `randoms k` is the value of the `k`-th
`random.randint(0, num_screens - 1)` call (line 779), hence always
`< num_screens` in any run the interpreter can produce. -/
structure Env where
  spawn : Nat → Option Nat
  wmctrlRaises : Nat → Bool
  xdotoolRaises : Nat → Bool
  randoms : Nat → Nat

/-- Python truthiness of an `Optional[int]` (`if pid:`): `None` and `0` are
falsy, every other integer truthy. -/
def pyTruthy (o : Option Nat) : Bool :=
  o.getD 0 != 0

/-- Python list subscription `l[i]` with an `Int` index: a negative index
counts from the end; a still-out-of-range index yields `none` (IndexError). -/
def pyIndex {α : Type} (l : List α) (i : Int) : Option α :=
  let j : Int := if i < 0 then (l.length : Int) + i else i
  if 0 ≤ j then l.get? j.toNat else none

/-- Python list subscription `l[i]` with a `Nat` index, as a fallible
computation: out of range raises `IndexError`. -/
def pyGet {α : Type} (l : List α) (i : Nat) : Except String α :=
  match l.get? i with
  | some a => .ok a
  | none => .error "IndexError"

/-- Which positioning tool chain of `_launch_linux` (lines 349-441) ran to
completion: the wmctrl block, the xdotool fallback entered when the wmctrl
block raises (line 396), or neither (the inner handler at lines 440-441
swallows the second failure).  The source records this nowhere: it is
observable only through side effects and never influences the return value. -/
inductive Placement where
  | wmctrl
  | xdotool
  | unplaced
  deriving Repr, DecidableEq

/-- `ScreenManager._launch_linux` (lines 336-443).  If `subprocess.Popen`
(line 343) raises, the exception propagates to the caller.  Otherwise the
positioning attempts run under `try`/`except` and line 443 returns
`process.pid` unconditionally. -/
def launch_linux (popen : Option Nat) (wmctrlRaises xdotoolRaises : Bool) :
    Except String (Nat × Placement) :=
  match popen with
  | none => .error "FileNotFoundError"
  | some pid =>
    let placement :=
      if !wmctrlRaises then Placement.wmctrl
      else if !xdotoolRaises then Placement.xdotool
      else Placement.unplaced
    .ok (pid, placement)

/-- `ScreenManager._launch_linux_at_position` (lines 501-614): same
control-flow shape as `_launch_linux`; the positioning block (lines 518-612)
is fully wrapped in `try`/`except` and line 614 returns `process.pid`. -/
def launch_linux_at_position (popen : Option Nat) (wmctrlRaises xdotoolRaises : Bool) :
    Except String (Nat × Placement) :=
  match popen with
  | none => .error "FileNotFoundError"
  | some pid =>
    let placement :=
      if !wmctrlRaises then Placement.wmctrl
      else if !xdotoolRaises then Placement.xdotool
      else Placement.unplaced
    .ok (pid, placement)

/-- `ScreenManager.launch_presentation_window` (lines 273-302).  The screen
fallback and subscription (lines 288-291) run outside the `try`, so an
IndexError there escapes; the dispatch to `_launch_linux` runs inside the
`try` (lines 293-302), so its exception becomes `return None`.  The resolved
screen is returned alongside the pid to expose the target rectangle the
launcher hands to `_launch_linux`. -/
def launch_presentation_window (screens : List Screen) (screen_id : Int)
    (popen : Option Nat) (wmctrlRaises xdotoolRaises : Bool) :
    Except String (Screen × Option Nat) :=
  let sid : Int := if (screens.length : Int) ≤ screen_id then 0 else screen_id
  match pyIndex screens sid with
  | none => .error "IndexError"
  | some screen =>
    match launch_linux popen wmctrlRaises xdotoolRaises with
    | .error _ => .ok (screen, none)
    | .ok (pid, _) => .ok (screen, some pid)

/-- `ScreenManager.launch_presentation_window_at_position` (lines 304-334):
the whole body is inside `try`/`except`, so a `Popen` failure becomes
`return None`; otherwise the pid is returned whatever the positioning did. -/
def launch_presentation_window_at_position (popen : Option Nat)
    (wmctrlRaises xdotoolRaises : Bool) : Option Nat :=
  match launch_linux_at_position popen wmctrlRaises xdotoolRaises with
  | .error _ => none
  | .ok (pid, _) => some pid

/-- Accumulating state of one `launch_presentations` run: the `result` dict
fields that mutate (lines 720-725) plus the trace of launch calls issued. -/
structure RunAcc where
  success : Bool
  windows : List WindowEntry
  errors : List String
  trace : List LaunchEvent
  deriving Repr, DecidableEq

/-- `result["errors"].append(e); result["success"] = False`. -/
def RunAcc.addError (acc : RunAcc) (e : String) : RunAcc :=
  { acc with errors := acc.errors ++ [e], success := false }

/-- `result["windows"].append(w)`. -/
def RunAcc.addWindow (acc : RunAcc) (w : WindowEntry) : RunAcc :=
  { acc with windows := acc.windows ++ [w] }

/-- Record one launch call in the effect trace. -/
def RunAcc.addEvent (acc : RunAcc) (ev : LaunchEvent) : RunAcc :=
  { acc with trace := acc.trace ++ [ev] }

/-- The `n ≤ m` loop of `launch_presentations` (lines 739-763):
`for index, presentation in enumerate(presentations)`, round-robin
`target_screen_id = index % num_screens`, one `launch_presentation_window`
call per presentation with a non-empty url. -/
def runSimple (screens : List Screen) (env : Env) :
    Nat → List Presentation → RunAcc → Except String RunAcc
  | _, [], acc => .ok acc
  | index, p :: rest, acc =>
    if p.url = "" then
      runSimple screens env (index + 1) rest
        (acc.addError "Missing URL in presentation config")
    else
      let sid := index % screens.length
      match launch_presentation_window screens (sid : Int) (env.spawn index)
          (env.wmctrlRaises index) (env.xdotoolRaises index) with
      | .error e => .error e
      | .ok (scr, pid) =>
        let acc1 := acc.addEvent (.window index p.url sid p.browser scr)
        if pyTruthy pid then
          runSimple screens env (index + 1) rest
            (acc1.addWindow { screen_id := sid, pid := pid.getD 0, url := p.url })
        else
          runSimple screens env (index + 1) rest
            (acc1.addError ("Failed to launch window " ++ toString (index + 1)
              ++ " on screen " ++ toString sid))

/-- The overflow while-loop of `launch_presentations` (lines 777-783): while
requests remain, increment the count of the screen chosen by the `k`-th
`random.randint(0, num_screens - 1)` call.  `List.set` is a no-op when the
chosen index is out of range, a situation `randint` cannot produce (its result
is always `< num_screens`); theorems that depend on the counts therefore hold
for every `randoms` function. -/
def addExtras (randoms : Nat → Nat) : Nat → Nat → List Nat → List Nat
  | _, 0, counts => counts
  | k, r + 1, counts =>
    let s := randoms k
    addExtras randoms (k + 1) r (counts.set s (counts.getD s 0 + 1))

/-- `presentations_per_screen` of the `n > m` branch (lines 767-783): the
first pass (lines 771-774) gives every screen exactly one presentation
(reachable only when `n > m`, so `remaining` stays positive throughout it),
then `n - m` random increments. -/
def presentations_per_screen (m n : Nat) (randoms : Nat → Nat) : List Nat :=
  addExtras randoms 0 (n - m) (List.replicate m 1)

/-- The inner slicing loop `for i in range(count)` (lines 820-856): one
`launch_presentation_window_at_position` call per presentation with a
non-empty url, at `x = screen.x + i * window_width`.  Arguments after `ww`
(`window_width`, line 818): iterations left, current `i`,
`presentation_index`, accumulator; returns the accumulator and the advanced
`presentation_index`. -/
def runSplit (pres : List Presentation) (env : Env) (sid : Nat) (scr : Screen)
    (count ww : Nat) : Nat → Nat → Nat → RunAcc → Except String (RunAcc × Nat)
  | 0, _, pi, acc => .ok (acc, pi)
  | left + 1, i, pi, acc =>
    match pyGet pres pi with
    | .error e => .error e
    | .ok p =>
      if p.url = "" then
        runSplit pres env sid scr count ww left (i + 1) (pi + 1)
          (acc.addError "Missing URL in presentation config")
      else
        let xpos : Int := scr.x + Int.ofNat (i * ww)
        let pid := launch_presentation_window_at_position (env.spawn pi)
          (env.wmctrlRaises pi) (env.xdotoolRaises pi)
        let acc1 := acc.addEvent
          (.windowAt pi p.url xpos scr.y ww scr.height p.browser)
        if pyTruthy pid then
          runSplit pres env sid scr count ww left (i + 1) (pi + 1)
            (acc1.addWindow { screen_id := sid, pid := pid.getD 0, url := p.url,
                              split := some true, split_index := some i,
                              split_total := some count })
        else
          runSplit pres env sid scr count ww left (i + 1) (pi + 1)
            (acc1.addError ("Failed to launch window " ++ toString (pi + 1)))

/-- The `for screen_id in sorted(presentations_per_screen.keys())` walk
(lines 786-856).  After the first pass every screen `0 … m-1` has a positive
count, so the sorted key list is exactly `0, 1, …, m-1` and the walk is
recursion over the counts list with an ascending screen id.  `count == 1`
launches full-screen via `launch_presentation_window` (lines 791-815),
otherwise the screen is sliced (lines 816-856). -/
def runWalk (screens : List Screen) (pres : List Presentation) (env : Env) :
    List Nat → Nat → Nat → RunAcc → Except String (RunAcc × Nat)
  | [], _, pi, acc => .ok (acc, pi)
  | count :: cs, sid, pi, acc =>
    match pyGet screens sid with
    | .error e => .error e
    | .ok scr =>
      if count = 1 then
        match pyGet pres pi with
        | .error e => .error e
        | .ok p =>
          if p.url = "" then
            runWalk screens pres env cs (sid + 1) (pi + 1)
              (acc.addError "Missing URL in presentation config")
          else
            match launch_presentation_window screens (sid : Int) (env.spawn pi)
                (env.wmctrlRaises pi) (env.xdotoolRaises pi) with
            | .error e => .error e
            | .ok (scr2, pid) =>
              let acc1 := acc.addEvent (.window pi p.url sid p.browser scr2)
              if pyTruthy pid then
                runWalk screens pres env cs (sid + 1) (pi + 1)
                  (acc1.addWindow { screen_id := sid, pid := pid.getD 0,
                                    url := p.url, split := some false })
              else
                runWalk screens pres env cs (sid + 1) (pi + 1)
                  (acc1.addError ("Failed to launch window on screen "
                    ++ toString sid))
      else
        match runSplit pres env sid scr count (scr.width / count) count 0 pi acc with
        | .error e => .error e
        | .ok (acc1, pi1) => runWalk screens pres env cs (sid + 1) pi1 acc1

/-- `launch_presentations(config)` (lines 694-858), with the detected screen
list and the environment made explicit.  Empty request list returns the error
report (lines 731-734); `n ≤ m` runs the round-robin loop; otherwise, when no
screen was detected, the first `random.randint(0, -1)` call of the overflow
loop raises `ValueError` (line 779) before any launch; else the per-screen
counts are computed and the sorted-keys walk runs. -/
def launch_presentations (screens : List Screen) (presentations : List Presentation)
    (env : Env) : Except String (Report × List LaunchEvent) :=
  let n := presentations.length
  let m := screens.length
  let acc0 : RunAcc := { success := true, windows := [], errors := [], trace := [] }
  if n = 0 then
    .ok ({ success := false, windows := [],
           errors := ["No presentations to launch"], screens := screens }, [])
  else if n ≤ m then
    match runSimple screens env 0 presentations acc0 with
    | .error e => .error e
    | .ok acc =>
      .ok ({ success := acc.success, windows := acc.windows,
             errors := acc.errors, screens := screens }, acc.trace)
  else if m = 0 then
    .error "ValueError: empty range for randrange()"
  else
    let counts := presentations_per_screen m n env.randoms
    match runWalk screens presentations env counts 0 0 acc0 with
    | .error e => .error e
    | .ok (acc, _) =>
      .ok ({ success := acc.success, windows := acc.windows,
             errors := acc.errors, screens := screens }, acc.trace)

/-- The report of a run, when the run terminates normally. -/
def runReport : Except String (Report × List LaunchEvent) → Option Report
  | .ok (r, _) => some r
  | .error _ => none

/-- The launch-call trace of a run (empty when the run raises). -/
def runTrace : Except String (Report × List LaunchEvent) → List LaunchEvent
  | .ok (_, t) => t
  | .error _ => []

/-- A concrete environment for the concrete-instance theorems: every spawn
succeeds with pid `100 + i`, no positioning chain raises, every random draw
is 0. -/
def envT : Env :=
  { spawn := fun i => some (i + 100), wmctrlRaises := fun _ => false,
    xdotoolRaises := fun _ => false, randoms := fun _ => 0 }

/-- A 1920x1080 primary screen at the origin. -/
def scrA : Screen :=
  { id := 0, x := 0, y := 0, width := 1920, height := 1080, primary := true }

/-- A secondary 1280x1024 screen to the right of `scrA`. -/
def scrB : Screen := { id := 1, x := 1920, y := 0, width := 1280, height := 1024 }

/-- Concrete presentation requests. -/
def presA : Presentation := { url := "http://a" }

def presB : Presentation := { url := "http://b" }

def presEmpty : Presentation := { url := "" }

/-- Outcome triple (windows, errors, launch calls) of processing presentation
`index` in the `n ≤ m` loop. -/
def simpleStep (screens : List Screen) (env : Env) (index : Nat) (p : Presentation) :
    List WindowEntry × List String × List LaunchEvent :=
  if p.url = "" then ([], ["Missing URL in presentation config"], [])
  else
    let sid := index % screens.length
    let pid := env.spawn index
    let ev := LaunchEvent.window index p.url sid p.browser (screens.getD sid dScreen)
    if pyTruthy pid then
      ([{ screen_id := sid, pid := pid.getD 0, url := p.url }], [], [ev])
    else
      ([], ["Failed to launch window " ++ toString (index + 1)
            ++ " on screen " ++ toString sid], [ev])

/-- Windows, errors and launch calls produced by the whole `n ≤ m` loop. -/
def simpleCollect (screens : List Screen) (env : Env) :
    Nat → List Presentation → List WindowEntry × List String × List LaunchEvent
  | _, [] => ([], [], [])
  | index, p :: rest =>
    let s := simpleStep screens env index p
    let r := simpleCollect screens env (index + 1) rest
    (s.1 ++ r.1, s.2.1 ++ r.2.1, s.2.2 ++ r.2.2)

/-- Outcome triple of the whole-screen path (`count == 1`, lines 791-815) for
the presentation at index `pi` on screen `sid`. -/
def wholeStep (screens : List Screen) (pres : List Presentation) (env : Env)
    (sid pi : Nat) : List WindowEntry × List String × List LaunchEvent :=
  let p := pres.getD pi dPres
  if p.url = "" then ([], ["Missing URL in presentation config"], [])
  else
    let pid := env.spawn pi
    let ev := LaunchEvent.window pi p.url sid p.browser (screens.getD sid dScreen)
    if pyTruthy pid then
      ([{ screen_id := sid, pid := pid.getD 0, url := p.url, split := some false }],
       [], [ev])
    else
      ([], ["Failed to launch window on screen " ++ toString sid], [ev])

/-- Outcome triple of one slicing iteration (lines 820-856): slice `i` of
screen `sid`, presentation index `pi`, slice width `ww`. -/
def splitStep (pres : List Presentation) (env : Env) (sid : Nat) (scr : Screen)
    (count ww i pi : Nat) : List WindowEntry × List String × List LaunchEvent :=
  let p := pres.getD pi dPres
  if p.url = "" then ([], ["Missing URL in presentation config"], [])
  else
    let pid := env.spawn pi
    let ev := LaunchEvent.windowAt pi p.url (scr.x + Int.ofNat (i * ww)) scr.y
      ww scr.height p.browser
    if pyTruthy pid then
      ([{ screen_id := sid, pid := pid.getD 0, url := p.url, split := some true,
          split_index := some i, split_total := some count }], [], [ev])
    else
      ([], ["Failed to launch window " ++ toString (pi + 1)], [ev])

/-- Windows, errors and launch calls produced by the slicing loop. -/
def splitCollect (pres : List Presentation) (env : Env) (sid : Nat) (scr : Screen)
    (count ww : Nat) :
    Nat → Nat → Nat → List WindowEntry × List String × List LaunchEvent
  | 0, _, _ => ([], [], [])
  | left + 1, i, pi =>
    let s := splitStep pres env sid scr count ww i pi
    let r := splitCollect pres env sid scr count ww left (i + 1) (pi + 1)
    (s.1 ++ r.1, s.2.1 ++ r.2.1, s.2.2 ++ r.2.2)

/-- Windows, errors and launch calls produced by the sorted-keys walk of the
`n > m` branch, for the counts list `cs` starting at screen `sid` and
presentation index `pi`. -/
def walkCollect (screens : List Screen) (pres : List Presentation) (env : Env) :
    List Nat → Nat → Nat → List WindowEntry × List String × List LaunchEvent
  | [], _, _ => ([], [], [])
  | count :: cs, sid, pi =>
    let scr := screens.getD sid dScreen
    let s :=
      if count = 1 then wholeStep screens pres env sid pi
      else splitCollect pres env sid scr count (scr.width / count) count 0 pi
    let r := walkCollect screens pres env cs (sid + 1) (pi + count)
    (s.1 ++ r.1, s.2.1 ++ r.2.1, s.2.2 ++ r.2.2)

/-- Append an outcome triple to an accumulator; an error list that picked up
any entry forces `success := false` (each `errors.append` in the source is
paired with `result["success"] = False`). -/
def mergeAcc (acc : RunAcc)
    (out : List WindowEntry × List String × List LaunchEvent) : RunAcc :=
  { success := acc.success && out.2.1.isEmpty,
    windows := acc.windows ++ out.1,
    errors := acc.errors ++ out.2.1,
    trace := acc.trace ++ out.2.2 }

theorem mergeAcc_nil (acc : RunAcc) : mergeAcc acc ([], [], []) = acc := by
  simp [mergeAcc]

theorem mergeAcc_addError (acc : RunAcc) (e : String)
    (W : List WindowEntry) (E : List String) (T : List LaunchEvent) :
    mergeAcc (acc.addError e) (W, E, T) = mergeAcc acc (W, e :: E, T) := by
  simp [mergeAcc, RunAcc.addError]

theorem mergeAcc_addWindow_event (acc : RunAcc) (w : WindowEntry) (ev : LaunchEvent)
    (W : List WindowEntry) (E : List String) (T : List LaunchEvent) :
    mergeAcc ((acc.addEvent ev).addWindow w) (W, E, T)
      = mergeAcc acc (w :: W, E, ev :: T) := by
  simp [mergeAcc, RunAcc.addWindow, RunAcc.addEvent]

theorem mergeAcc_addError_event (acc : RunAcc) (e : String) (ev : LaunchEvent)
    (W : List WindowEntry) (E : List String) (T : List LaunchEvent) :
    mergeAcc ((acc.addEvent ev).addError e) (W, E, T)
      = mergeAcc acc (W, e :: E, ev :: T) := by
  simp [mergeAcc, RunAcc.addError, RunAcc.addEvent]

theorem mergeAcc_mergeAcc (acc : RunAcc)
    (w1 : List WindowEntry) (e1 : List String) (t1 : List LaunchEvent)
    (w2 : List WindowEntry) (e2 : List String) (t2 : List LaunchEvent) :
    mergeAcc (mergeAcc acc (w1, e1, t1)) (w2, e2, t2)
      = mergeAcc acc (w1 ++ w2, e1 ++ e2, t1 ++ t2) := by
  cases e1 <;> simp [mergeAcc, Bool.and_assoc]

theorem get?_eq_some_getD {α : Type} (l : List α) (i : Nat) (d : α)
    (h : i < l.length) : l.get? i = some (l.getD i d) := by
  induction l generalizing i with
  | nil => simp at h
  | cons a t ih =>
    cases i with
    | zero => rfl
    | succ j => simpa using ih j (by simpa using h)

theorem pyGet_ok {α : Type} (l : List α) (i : Nat) (d : α) (h : i < l.length) :
    pyGet l i = .ok (l.getD i d) := by
  unfold pyGet
  rw [get?_eq_some_getD l i d h]

theorem pyIndex_natCast {α : Type} (l : List α) (i : Nat) :
    pyIndex l (i : Int) = l.get? i := by
  have h1 : ¬ ((i : Int) < 0) := by
    simp
  simp [pyIndex, h1]

/-- A `launch_presentation_window` call with an in-range non-negative screen
id resolves that screen and returns the `Popen` outcome as the pid, whatever
the positioning chains did. -/
theorem lpw_of_lt (screens : List Screen) (sid : Nat) (sp : Option Nat)
    (w x : Bool) (h : sid < screens.length) :
    launch_presentation_window screens (sid : Int) sp w x
      = .ok (screens.getD sid dScreen, sp) := by
  have h1 : ¬ ((screens.length : Int) ≤ (sid : Int)) := by
    exact_mod_cast Nat.not_le.mpr h
  unfold launch_presentation_window
  rw [if_neg h1]
  dsimp only
  rw [pyIndex_natCast, get?_eq_some_getD screens sid dScreen h]
  cases sp <;> simp [launch_linux]

/-- `launch_presentation_window_at_position` returns exactly the `Popen`
outcome: `None` iff the browser process could not be started. -/
theorem lpwAt_eq (sp : Option Nat) (w x : Bool) :
    launch_presentation_window_at_position sp w x = sp := by
  cases sp <;> rfl

/-- The `n ≤ m` loop never raises and its effect on the accumulator is
described by `simpleCollect`. -/
theorem runSimple_eq (screens : List Screen) (env : Env) (hm : 0 < screens.length)
    (l : List Presentation) :
    ∀ (index : Nat) (acc : RunAcc),
      runSimple screens env index l acc
        = .ok (mergeAcc acc (simpleCollect screens env index l)) := by
  induction l with
  | nil =>
    intro index acc
    simp [runSimple, simpleCollect, mergeAcc_nil]
  | cons p rest ih =>
    intro index acc
    rcases hr : simpleCollect screens env (index + 1) rest with ⟨W, E, T⟩
    have hsid : index % screens.length < screens.length := Nat.mod_lt _ hm
    rw [runSimple]
    by_cases hu : p.url = ""
    · rw [if_pos hu, ih, hr, mergeAcc_addError]
      simp [simpleCollect, simpleStep, hu, hr]
    · rw [if_neg hu]
      dsimp only
      rw [lpw_of_lt screens (index % screens.length) (env.spawn index)
          (env.wmctrlRaises index) (env.xdotoolRaises index) hsid]
      by_cases ht : pyTruthy (env.spawn index)
      · simp only [ht, if_true, ih, hr, mergeAcc_addWindow_event]
        simp [simpleCollect, simpleStep, hu, ht, hr]
      · simp only [ht, if_false, ih, hr, mergeAcc_addError_event]
        simp [simpleCollect, simpleStep, hu, ht, hr]


theorem splitStep_empty (pres : List Presentation) (env : Env) (sid : Nat)
    (scr : Screen) (count ww i pi : Nat) (hu : (pres.getD pi dPres).url = "") :
    splitStep pres env sid scr count ww i pi
      = ([], ["Missing URL in presentation config"], []) := by
  unfold splitStep
  rw [if_pos hu]

theorem splitStep_launch (pres : List Presentation) (env : Env) (sid : Nat)
    (scr : Screen) (count ww i pi : Nat) (hu : ¬ (pres.getD pi dPres).url = "")
    (ht : pyTruthy (env.spawn pi) = true) :
    splitStep pres env sid scr count ww i pi
      = ([{ screen_id := sid, pid := (env.spawn pi).getD 0,
            url := (pres.getD pi dPres).url, split := some true,
            split_index := some i, split_total := some count }], [],
         [LaunchEvent.windowAt pi (pres.getD pi dPres).url
            (scr.x + Int.ofNat (i * ww)) scr.y ww scr.height
            (pres.getD pi dPres).browser]) := by
  unfold splitStep
  rw [if_neg hu]
  dsimp only
  rw [if_pos ht]

theorem splitStep_fail (pres : List Presentation) (env : Env) (sid : Nat)
    (scr : Screen) (count ww i pi : Nat) (hu : ¬ (pres.getD pi dPres).url = "")
    (ht : ¬ pyTruthy (env.spawn pi) = true) :
    splitStep pres env sid scr count ww i pi
      = ([], ["Failed to launch window " ++ toString (pi + 1)],
         [LaunchEvent.windowAt pi (pres.getD pi dPres).url
            (scr.x + Int.ofNat (i * ww)) scr.y ww scr.height
            (pres.getD pi dPres).browser]) := by
  unfold splitStep
  rw [if_neg hu]
  dsimp only
  rw [if_neg ht]

theorem splitCollect_succ (pres : List Presentation) (env : Env) (sid : Nat)
    (scr : Screen) (count ww n i pi : Nat) :
    splitCollect pres env sid scr count ww (n + 1) i pi
      = ((splitStep pres env sid scr count ww i pi).1
           ++ (splitCollect pres env sid scr count ww n (i + 1) (pi + 1)).1,
         (splitStep pres env sid scr count ww i pi).2.1
           ++ (splitCollect pres env sid scr count ww n (i + 1) (pi + 1)).2.1,
         (splitStep pres env sid scr count ww i pi).2.2
           ++ (splitCollect pres env sid scr count ww n (i + 1) (pi + 1)).2.2) := rfl

/-- The slicing loop never raises while the presentation indices it visits
stay in range, and its effect is described by `splitCollect`; it advances
`presentation_index` by exactly the number of iterations. -/
theorem runSplit_eq (pres : List Presentation) (env : Env) (sid : Nat)
    (scr : Screen) (count ww : Nat) :
    ∀ (left i pi : Nat) (acc : RunAcc), pi + left ≤ pres.length →
      runSplit pres env sid scr count ww left i pi acc
        = .ok (mergeAcc acc (splitCollect pres env sid scr count ww left i pi),
               pi + left) := by
  intro left
  induction left with
  | zero =>
    intro i pi acc h
    simp [runSplit, splitCollect, mergeAcc_nil]
  | succ n ih =>
    intro i pi acc h
    have hpi : pi < pres.length := by omega
    rcases hr : splitCollect pres env sid scr count ww n (i + 1) (pi + 1)
      with ⟨W, E, T⟩
    have hidx : pi + 1 + n = pi + (n + 1) := by omega
    rw [runSplit, pyGet_ok pres pi dPres hpi]
    dsimp only
    by_cases hu : (pres.getD pi dPres).url = ""
    · rw [if_pos hu, ih (i + 1) (pi + 1) _ (by omega), hr, mergeAcc_addError, hidx,
        splitCollect_succ, splitStep_empty pres env sid scr count ww i pi hu, hr]
      simp
    · rw [if_neg hu, lpwAt_eq]
      by_cases ht : pyTruthy (env.spawn pi)
      · rw [if_pos ht, ih (i + 1) (pi + 1) _ (by omega), hr,
          mergeAcc_addWindow_event, hidx, splitCollect_succ,
          splitStep_launch pres env sid scr count ww i pi hu ht, hr]
        simp
      · rw [if_neg ht, ih (i + 1) (pi + 1) _ (by omega), hr,
          mergeAcc_addError_event, hidx, splitCollect_succ,
          splitStep_fail pres env sid scr count ww i pi hu ht, hr]
        simp

theorem wholeStep_empty (screens : List Screen) (pres : List Presentation)
    (env : Env) (sid pi : Nat) (hu : (pres.getD pi dPres).url = "") :
    wholeStep screens pres env sid pi
      = ([], ["Missing URL in presentation config"], []) := by
  unfold wholeStep
  rw [if_pos hu]

theorem wholeStep_launch (screens : List Screen) (pres : List Presentation)
    (env : Env) (sid pi : Nat) (hu : ¬ (pres.getD pi dPres).url = "")
    (ht : pyTruthy (env.spawn pi) = true) :
    wholeStep screens pres env sid pi
      = ([{ screen_id := sid, pid := (env.spawn pi).getD 0,
            url := (pres.getD pi dPres).url, split := some false }], [],
         [LaunchEvent.window pi (pres.getD pi dPres).url sid
            (pres.getD pi dPres).browser (screens.getD sid dScreen)]) := by
  unfold wholeStep
  rw [if_neg hu]
  dsimp only
  rw [if_pos ht]

theorem wholeStep_fail (screens : List Screen) (pres : List Presentation)
    (env : Env) (sid pi : Nat) (hu : ¬ (pres.getD pi dPres).url = "")
    (ht : ¬ pyTruthy (env.spawn pi) = true) :
    wholeStep screens pres env sid pi
      = ([], ["Failed to launch window on screen " ++ toString sid],
         [LaunchEvent.window pi (pres.getD pi dPres).url sid
            (pres.getD pi dPres).browser (screens.getD sid dScreen)]) := by
  unfold wholeStep
  rw [if_neg hu]
  dsimp only
  rw [if_neg ht]

theorem walkCollect_cons_one (screens : List Screen) (pres : List Presentation)
    (env : Env) (cs : List Nat) (sid pi : Nat) :
    walkCollect screens pres env (1 :: cs) sid pi
      = ((wholeStep screens pres env sid pi).1
           ++ (walkCollect screens pres env cs (sid + 1) (pi + 1)).1,
         (wholeStep screens pres env sid pi).2.1
           ++ (walkCollect screens pres env cs (sid + 1) (pi + 1)).2.1,
         (wholeStep screens pres env sid pi).2.2
           ++ (walkCollect screens pres env cs (sid + 1) (pi + 1)).2.2) := rfl

theorem walkCollect_cons_ne (screens : List Screen) (pres : List Presentation)
    (env : Env) (count : Nat) (cs : List Nat) (sid pi : Nat) (hc : ¬ count = 1) :
    walkCollect screens pres env (count :: cs) sid pi
      = ((splitCollect pres env sid (screens.getD sid dScreen) count
            ((screens.getD sid dScreen).width / count) count 0 pi).1
           ++ (walkCollect screens pres env cs (sid + 1) (pi + count)).1,
         (splitCollect pres env sid (screens.getD sid dScreen) count
            ((screens.getD sid dScreen).width / count) count 0 pi).2.1
           ++ (walkCollect screens pres env cs (sid + 1) (pi + count)).2.1,
         (splitCollect pres env sid (screens.getD sid dScreen) count
            ((screens.getD sid dScreen).width / count) count 0 pi).2.2
           ++ (walkCollect screens pres env cs (sid + 1) (pi + count)).2.2) := by
  conv_lhs => rw [walkCollect]
  rw [if_neg hc]

/-- The sorted-keys walk never raises when the counts list fits the screen
list and its total fits the presentation list; its effect is described by
`walkCollect` and it advances `presentation_index` by the total count. -/
theorem runWalk_eq (screens : List Screen) (pres : List Presentation) (env : Env) :
    ∀ (cs : List Nat) (sid pi : Nat) (acc : RunAcc),
      sid + cs.length ≤ screens.length → pi + cs.sum ≤ pres.length →
      runWalk screens pres env cs sid pi acc
        = .ok (mergeAcc acc (walkCollect screens pres env cs sid pi),
               pi + cs.sum) := by
  intro cs
  induction cs with
  | nil =>
    intro sid pi acc h1 h2
    simp [runWalk, walkCollect, mergeAcc_nil]
  | cons count rest ih =>
    intro sid pi acc h1 h2
    rw [List.length_cons] at h1
    rw [List.sum_cons] at h2
    have hsid : sid < screens.length := by omega
    rw [runWalk, pyGet_ok screens sid dScreen hsid]
    dsimp only
    by_cases hc : count = 1
    · subst hc
      rw [if_pos rfl]
      have hpi : pi < pres.length := by omega
      rcases hw : walkCollect screens pres env rest (sid + 1) (pi + 1)
        with ⟨W, E, T⟩
      have hidx : pi + 1 + rest.sum = pi + (1 :: rest).sum := by
        rw [List.sum_cons]; omega
      rw [pyGet_ok pres pi dPres hpi]
      dsimp only
      by_cases hu : (pres.getD pi dPres).url = ""
      · rw [if_pos hu, ih (sid + 1) (pi + 1) _ (by omega) (by omega), hw,
          mergeAcc_addError, hidx, walkCollect_cons_one,
          wholeStep_empty screens pres env sid pi hu, hw]
        simp
      · rw [if_neg hu,
          lpw_of_lt screens sid (env.spawn pi) (env.wmctrlRaises pi)
            (env.xdotoolRaises pi) hsid]
        dsimp only
        by_cases ht : pyTruthy (env.spawn pi)
        · rw [if_pos ht, ih (sid + 1) (pi + 1) _ (by omega) (by omega), hw,
            mergeAcc_addWindow_event, hidx, walkCollect_cons_one,
            wholeStep_launch screens pres env sid pi hu ht, hw]
          simp
        · rw [if_neg ht, ih (sid + 1) (pi + 1) _ (by omega) (by omega), hw,
            mergeAcc_addError_event, hidx, walkCollect_cons_one,
            wholeStep_fail screens pres env sid pi hu ht, hw]
          simp
    · rw [if_neg hc]
      rcases hw : walkCollect screens pres env rest (sid + 1) (pi + count)
        with ⟨W, E, T⟩
      rcases hs : splitCollect pres env sid (screens.getD sid dScreen) count
          ((screens.getD sid dScreen).width / count) count 0 pi
        with ⟨w1, e1, t1⟩
      rw [runSplit_eq pres env sid (screens.getD sid dScreen) count
          ((screens.getD sid dScreen).width / count) count 0 pi acc (by omega), hs]
      dsimp only
      rw [ih (sid + 1) (pi + count) _ (by omega) (by omega), hw, mergeAcc_mergeAcc]
      have hidx : pi + count + rest.sum = pi + (count :: rest).sum := by
        rw [List.sum_cons]; omega
      rw [hidx, walkCollect_cons_ne screens pres env count rest sid pi hc, hs, hw]

theorem addExtras_length (randoms : Nat → Nat) :
    ∀ (rem k : Nat) (counts : List Nat),
      (addExtras randoms k rem counts).length = counts.length := by
  intro rem
  induction rem with
  | zero => intro k counts; rfl
  | succ r ih =>
    intro k counts
    rw [addExtras]
    rw [ih]
    exact List.length_set counts _ _

theorem sum_set_bump (l : List Nat) (s : Nat) :
    (l.set s (l.getD s 0 + 1)).sum ≤ l.sum + 1 := by
  induction l generalizing s with
  | nil => simp
  | cons a t ih =>
    cases s with
    | zero => simp [List.set]; omega
    | succ j =>
      have := ih j
      simp only [List.set, List.getD_cons_succ, List.sum_cons]
      omega

theorem addExtras_sum (randoms : Nat → Nat) :
    ∀ (rem k : Nat) (counts : List Nat),
      (addExtras randoms k rem counts).sum ≤ counts.sum + rem := by
  intro rem
  induction rem with
  | zero => intro k counts; simp [addExtras]
  | succ r ih =>
    intro k counts
    rw [addExtras]
    have h1 := ih (k + 1) (counts.set (randoms k) (counts.getD (randoms k) 0 + 1))
    have h2 := sum_set_bump counts (randoms k)
    omega

theorem presentations_per_screen_length (m n : Nat) (r : Nat → Nat) :
    (presentations_per_screen m n r).length = m := by
  unfold presentations_per_screen
  rw [addExtras_length]
  exact List.length_replicate m 1

theorem presentations_per_screen_sum_le (m n : Nat) (r : Nat → Nat) (h : m ≤ n) :
    (presentations_per_screen m n r).sum ≤ n := by
  unfold presentations_per_screen
  have h1 := addExtras_sum r (n - m) 0 (List.replicate m 1)
  have h2 : (List.replicate m 1).sum = m := by simp
  omega

/-- Full characterization of the `n ≤ m` branch of `launch_presentations`. -/
theorem launch_presentations_simple (screens : List Screen)
    (pres : List Presentation) (env : Env) (hn : pres.length ≠ 0)
    (h2 : pres.length ≤ screens.length) :
    launch_presentations screens pres env
      = .ok ({ success := (simpleCollect screens env 0 pres).2.1.isEmpty,
               windows := (simpleCollect screens env 0 pres).1,
               errors := (simpleCollect screens env 0 pres).2.1,
               screens := screens },
             (simpleCollect screens env 0 pres).2.2) := by
  have hm : 0 < screens.length := by omega
  unfold launch_presentations
  dsimp only
  rw [if_neg hn, if_pos h2, runSimple_eq screens env hm pres 0]
  rcases hX : simpleCollect screens env 0 pres with ⟨W, E, T⟩
  simp [mergeAcc, hX]

/-- Full characterization of the `n > m` branch of `launch_presentations`
(for a non-empty screen list): the per-screen counts are computed from the
random draws and the sorted-keys walk processes them. -/
theorem launch_presentations_overflow (screens : List Screen)
    (pres : List Presentation) (env : Env) (hm : 0 < screens.length)
    (hnm : screens.length < pres.length) :
    launch_presentations screens pres env
      = .ok ({ success := (walkCollect screens pres env
                 (presentations_per_screen screens.length pres.length env.randoms)
                 0 0).2.1.isEmpty,
               windows := (walkCollect screens pres env
                 (presentations_per_screen screens.length pres.length env.randoms)
                 0 0).1,
               errors := (walkCollect screens pres env
                 (presentations_per_screen screens.length pres.length env.randoms)
                 0 0).2.1,
               screens := screens },
             (walkCollect screens pres env
               (presentations_per_screen screens.length pres.length env.randoms)
               0 0).2.2) := by
  have hn : ¬ pres.length = 0 := by omega
  have hle : ¬ pres.length ≤ screens.length := by omega
  have hm0 : ¬ screens.length = 0 := by omega
  unfold launch_presentations
  dsimp only
  rw [if_neg hn, if_neg hle, if_neg hm0,
    runWalk_eq screens pres env
      (presentations_per_screen screens.length pres.length env.randoms) 0 0 _
      (by rw [presentations_per_screen_length]; omega)
      (by have := presentations_per_screen_sum_le screens.length pres.length
            env.randoms (by omega)
          omega)]
  rcases hX : walkCollect screens pres env
      (presentations_per_screen screens.length pres.length env.randoms) 0 0
    with ⟨W, E, T⟩
  simp [mergeAcc, hX]

theorem simpleStep_empty (screens : List Screen) (env : Env) (i : Nat)
    (p : Presentation) (hu : p.url = "") :
    simpleStep screens env i p
      = ([], ["Missing URL in presentation config"], []) := by
  unfold simpleStep
  rw [if_pos hu]

theorem simpleStep_launch (screens : List Screen) (env : Env) (i : Nat)
    (p : Presentation) (hu : ¬ p.url = "")
    (ht : pyTruthy (env.spawn i) = true) :
    simpleStep screens env i p
      = ([{ screen_id := i % screens.length, pid := (env.spawn i).getD 0,
            url := p.url }], [],
         [LaunchEvent.window i p.url (i % screens.length) p.browser
            (screens.getD (i % screens.length) dScreen)]) := by
  unfold simpleStep
  rw [if_neg hu]
  dsimp only
  rw [if_pos ht]

theorem simpleStep_fail (screens : List Screen) (env : Env) (i : Nat)
    (p : Presentation) (hu : ¬ p.url = "")
    (ht : ¬ pyTruthy (env.spawn i) = true) :
    simpleStep screens env i p
      = ([], ["Failed to launch window " ++ toString (i + 1) ++ " on screen "
              ++ toString (i % screens.length)],
         [LaunchEvent.window i p.url (i % screens.length) p.browser
            (screens.getD (i % screens.length) dScreen)]) := by
  unfold simpleStep
  rw [if_neg hu]
  dsimp only
  rw [if_neg ht]

theorem simpleCollect_cons (screens : List Screen) (env : Env) (i : Nat)
    (p : Presentation) (rest : List Presentation) :
    simpleCollect screens env i (p :: rest)
      = ((simpleStep screens env i p).1 ++ (simpleCollect screens env (i + 1) rest).1,
         (simpleStep screens env i p).2.1
           ++ (simpleCollect screens env (i + 1) rest).2.1,
         (simpleStep screens env i p).2.2
           ++ (simpleCollect screens env (i + 1) rest).2.2) := rfl

/-- Whatever the url and spawn outcome, the launch calls issued while
processing presentation `i` in the `n ≤ m` loop are labelled `i`. -/
theorem simpleStep_trace_req (screens : List Screen) (env : Env) (i : Nat)
    (p : Presentation) (ev : LaunchEvent)
    (h : ev ∈ (simpleStep screens env i p).2.2) : ev.reqIndex = i := by
  by_cases hu : p.url = ""
  · rw [simpleStep_empty screens env i p hu] at h
    simp at h
  · by_cases ht : pyTruthy (env.spawn i)
    · rw [simpleStep_launch screens env i p hu ht] at h
      simp at h
      rw [h, LaunchEvent.reqIndex]
    · rw [simpleStep_fail screens env i p hu ht] at h
      simp at h
      rw [h, LaunchEvent.reqIndex]

theorem simpleCollect_trace_ge (screens : List Screen) (env : Env) :
    ∀ (l : List Presentation) (i0 : Nat) (ev : LaunchEvent),
      ev ∈ (simpleCollect screens env i0 l).2.2 → i0 ≤ ev.reqIndex := by
  intro l
  induction l with
  | nil =>
    intro i0 ev h
    simp [simpleCollect] at h
  | cons p rest ih =>
    intro i0 ev h
    rw [simpleCollect_cons] at h
    rcases List.mem_append.mp h with h1 | h2
    · rw [simpleStep_trace_req screens env i0 p ev h1]
    · have := ih (i0 + 1) ev h2
      omega

/-- The launch calls labelled `i0 + j` in the `n ≤ m` loop's trace are exactly
the trace of step `j`: one call when the url is present, none otherwise. -/
theorem simpleCollect_filter (screens : List Screen) (env : Env) :
    ∀ (l : List Presentation) (i0 j : Nat) (hj : j < l.length),
      (simpleCollect screens env i0 l).2.2.filter
          (fun ev => ev.reqIndex == i0 + j)
        = (simpleStep screens env (i0 + j) (l.get ⟨j, hj⟩)).2.2 := by
  intro l
  induction l with
  | nil =>
    intro i0 j hj
    simp at hj
  | cons p rest ih =>
    intro i0 j hj
    rw [simpleCollect_cons, List.filter_append]
    cases j with
    | zero =>
      have hstep : ∀ ev ∈ (simpleStep screens env i0 p).2.2,
          (fun ev => ev.reqIndex == i0 + 0) ev = true := by
        intro ev hev
        simp [simpleStep_trace_req screens env i0 p ev hev]
      have hrest : (simpleCollect screens env (i0 + 1) rest).2.2.filter
          (fun ev => ev.reqIndex == i0 + 0) = [] := by
        rw [List.filter_eq_nil_iff]
        intro ev hev
        have := simpleCollect_trace_ge screens env rest (i0 + 1) ev hev
        simp
        omega
      rw [List.filter_eq_self.mpr hstep, hrest, List.append_nil]
      rfl
    | succ k =>
      have hstep : (simpleStep screens env i0 p).2.2.filter
          (fun ev => ev.reqIndex == i0 + (k + 1)) = [] := by
        rw [List.filter_eq_nil_iff]
        intro ev hev
        have := simpleStep_trace_req screens env i0 p ev hev
        simp
        omega
      have e1 : i0 + (k + 1) = (i0 + 1) + k := by omega
      rw [hstep, List.nil_append, e1,
        ih (i0 + 1) k (by simpa using hj)]
      rfl

/-- With a non-empty url, step `i` of the `n ≤ m` loop issues exactly one
launch call: `launch_presentation_window(url, i mod m, browser)`, resolving
screen `i mod m` whole. -/
theorem simpleStep_trace_of_url (screens : List Screen) (env : Env) (i : Nat)
    (p : Presentation) (hu : ¬ p.url = "") :
    (simpleStep screens env i p).2.2
      = [LaunchEvent.window i p.url (i % screens.length) p.browser
           (screens.getD (i % screens.length) dScreen)] := by
  by_cases ht : pyTruthy (env.spawn i)
  · rw [simpleStep_launch screens env i p hu ht]
  · rw [simpleStep_fail screens env i p hu ht]

/-- C3: for `1 ≤ n ≤ m`, request `i` with a non-empty url is launched on
screen `i mod m` via a single `launch_presentation_window` call whose resolved
target is that screen's full rectangle (no slicing). -/
theorem C3_round_robin_full_screen (screens : List Screen)
    (pres : List Presentation) (env : Env) (h1 : 1 ≤ pres.length)
    (h2 : pres.length ≤ screens.length) (i : Nat) (hi : i < pres.length)
    (hu : (pres.get ⟨i, hi⟩).url ≠ "") :
    (runTrace (launch_presentations screens pres env)).filter
        (fun ev => ev.reqIndex == i)
      = [LaunchEvent.window i (pres.get ⟨i, hi⟩).url (i % screens.length)
           (pres.get ⟨i, hi⟩).browser
           (screens.getD (i % screens.length) dScreen)] := by
  rw [launch_presentations_simple screens pres env (by omega) h2]
  dsimp only [runTrace]
  have h := simpleCollect_filter screens env pres 0 i hi
  rw [Nat.zero_add] at h
  rw [h, simpleStep_trace_of_url screens env i (pres.get ⟨i, hi⟩) hu]

/-- The per-screen counts a run of `launch_presentations` uses in its
`n > m` branch. -/
def overflowCounts (screens : List Screen) (pres : List Presentation)
    (env : Env) : List Nat :=
  presentations_per_screen screens.length pres.length env.randoms

/-- Slice `j` of a slicing loop over `left` iterations launches the
presentation at index `pi0 + j` (when its url is non-empty) at
`x = scr.x + (i0 + j) * ww` with width `ww` and the screen's `y`/`height`. -/
theorem splitCollect_trace_mem (pres : List Presentation) (env : Env)
    (sid : Nat) (scr : Screen) (count ww : Nat) :
    ∀ (left i0 pi0 j : Nat), j < left →
      ¬ (pres.getD (pi0 + j) dPres).url = "" →
      LaunchEvent.windowAt (pi0 + j) (pres.getD (pi0 + j) dPres).url
          (scr.x + Int.ofNat ((i0 + j) * ww)) scr.y ww scr.height
          (pres.getD (pi0 + j) dPres).browser
        ∈ (splitCollect pres env sid scr count ww left i0 pi0).2.2 := by
  intro left
  induction left with
  | zero =>
    intro i0 pi0 j hj hu
    omega
  | succ n ih =>
    intro i0 pi0 j hj hu
    rw [splitCollect_succ]
    cases j with
    | zero =>
      simp only [Nat.add_zero] at hu ⊢
      by_cases ht : pyTruthy (env.spawn pi0)
      · rw [splitStep_launch pres env sid scr count ww i0 pi0 hu ht]
        simp
      · rw [splitStep_fail pres env sid scr count ww i0 pi0 hu ht]
        simp
    | succ k =>
      have e1 : pi0 + (k + 1) = pi0 + 1 + k := by omega
      have e2 : i0 + (k + 1) = i0 + 1 + k := by omega
      rw [e1] at hu ⊢
      rw [e2]
      exact List.mem_append_right _ (ih (i0 + 1) (pi0 + 1) k (by omega) hu)

/-- Membership in the slicing trace of screen `sid0 + s` (whose count is not
1) carries over to the trace of the whole walk: the slicing loop for that
screen starts at presentation index `pi0` plus the counts of the earlier
screens. -/
theorem walkCollect_trace_mem (screens : List Screen) (pres : List Presentation)
    (env : Env) :
    ∀ (cs : List Nat) (sid0 pi0 s : Nat), s < cs.length →
      cs.getD s 0 ≠ 1 →
      ∀ ev, ev ∈ (splitCollect pres env (sid0 + s)
          (screens.getD (sid0 + s) dScreen) (cs.getD s 0)
          ((screens.getD (sid0 + s) dScreen).width / cs.getD s 0)
          (cs.getD s 0) 0 (pi0 + (cs.take s).sum)).2.2 →
        ev ∈ (walkCollect screens pres env cs sid0 pi0).2.2 := by
  intro cs
  induction cs with
  | nil =>
    intro sid0 pi0 s hs
    simp at hs
  | cons c rest ih =>
    intro sid0 pi0 s hs hc1 ev hev
    cases s with
    | zero =>
      simp only [List.getD_cons_zero] at hc1
      simp only [List.getD_cons_zero, Nat.add_zero, List.take_zero,
        List.sum_nil] at hev
      rw [walkCollect_cons_ne screens pres env c rest sid0 pi0 hc1]
      exact List.mem_append_left _ hev
    | succ k =>
      have hk : k < rest.length := by simpa using hs
      simp only [List.getD_cons_succ] at hev hc1
      rw [List.take_succ_cons, List.sum_cons] at hev
      have e1 : pi0 + (c + (rest.take k).sum) = pi0 + c + (rest.take k).sum := by
        omega
      have e2 : sid0 + (k + 1) = sid0 + 1 + k := by omega
      rw [e1, e2] at hev
      have hmem := ih (sid0 + 1) (pi0 + c) k hk hc1 ev hev
      by_cases hc : c = 1
      · subst hc
        rw [walkCollect_cons_one]
        exact List.mem_append_right _ hmem
      · rw [walkCollect_cons_ne screens pres env c rest sid0 pi0 hc]
        exact List.mem_append_right _ hmem

/-- C4: in the `n > m` branch, a screen `s` assigned `k > 1` presentations is
partitioned into `k` slices of width `floor(width/k)`; slice `j` (input
order) launches presentation `off + j` at `x = screen.x + j * width`,
sharing the screen's `y` and `height`. -/
theorem C4_split_geometry (screens : List Screen) (pres : List Presentation)
    (env : Env) (s j k off ww : Nat) (hm : 0 < screens.length)
    (hnm : screens.length < pres.length) (hs : s < screens.length)
    (hkeq : (overflowCounts screens pres env).getD s 0 = k)
    (hoff : ((overflowCounts screens pres env).take s).sum = off)
    (hww : (screens.getD s dScreen).width / k = ww)
    (hk1 : 1 < k) (hj : j < k)
    (hu : ¬ (pres.getD (off + j) dPres).url = "") :
    LaunchEvent.windowAt (off + j) (pres.getD (off + j) dPres).url
        ((screens.getD s dScreen).x + Int.ofNat (j * ww))
        (screens.getD s dScreen).y ww (screens.getD s dScreen).height
        (pres.getD (off + j) dPres).browser
      ∈ runTrace (launch_presentations screens pres env) := by
  rw [launch_presentations_overflow screens pres env hm hnm]
  dsimp only [runTrace]
  have hlen : s < (presentations_per_screen screens.length pres.length
      env.randoms).length := by
    rw [presentations_per_screen_length]
    exact hs
  have hc1 : (presentations_per_screen screens.length pres.length
      env.randoms).getD s 0 ≠ 1 := by
    unfold overflowCounts at hkeq
    omega
  apply walkCollect_trace_mem screens pres env
    (presentations_per_screen screens.length pres.length env.randoms)
    0 0 s hlen hc1
  unfold overflowCounts at hkeq hoff
  rw [Nat.zero_add, Nat.zero_add, hkeq, hoff, hww]
  have := splitCollect_trace_mem pres env s (screens.getD s dScreen) k ww
    k 0 off j hj hu
  simpa using this

/-- C5: three requests whose second lacks a url, the other two spawning
successfully: exactly one error, two window entries (for requests 1 and 3, in
order), `success = false` — valid on any non-empty screen list, whatever the
random draws of the overflow branch. -/
theorem C5_error_accumulation (screens : List Screen) (env : Env)
    (p1 p2 p3 : Presentation) (hm : screens ≠ [])
    (hr : ∀ kk, env.randoms kk < screens.length)
    (hu1 : p1.url ≠ "") (hu2 : p2.url = "") (hu3 : p3.url ≠ "")
    (ht1 : pyTruthy (env.spawn 0) = true) (ht3 : pyTruthy (env.spawn 2) = true) :
    (runReport (launch_presentations screens [p1, p2, p3] env)).map
        (fun rep => (rep.success, rep.errors, rep.windows.map (fun w => w.url)))
      = some (false, ["Missing URL in presentation config"],
              [p1.url, p3.url]) := by
  have hm1 : 0 < screens.length := List.length_pos.mpr hm
  rcases Nat.lt_or_ge screens.length 3 with hlt | hge
  · have hm12 : screens.length = 1 ∨ screens.length = 2 := by omega
    rcases hm12 with h1 | h2
    · obtain ⟨s, rfl⟩ := List.length_eq_one.mp h1
      have h0 : env.randoms 0 = 0 := by
        have := hr 0
        simp at this
        omega
      have hx1 : env.randoms 1 = 0 := by
        have := hr 1
        simp at this
        omega
      have hc : presentations_per_screen (List.length [s])
          (List.length [p1, p2, p3]) env.randoms = [3] := by
        show presentations_per_screen 1 3 env.randoms = [3]
        simp [presentations_per_screen, addExtras, h0, hx1]
      rw [launch_presentations_overflow [s] [p1, p2, p3] env (by simp) (by simp),
        hc, walkCollect_cons_ne [s] [p1, p2, p3] env 3 [] 0 0 (by omega),
        splitCollect_succ, splitCollect_succ, splitCollect_succ,
        splitStep_launch [p1, p2, p3] env 0 ([s].getD 0 dScreen) 3
          (([s].getD 0 dScreen).width / 3) 0 0 (by simpa using hu1) ht1,
        splitStep_empty [p1, p2, p3] env 0 ([s].getD 0 dScreen) 3
          (([s].getD 0 dScreen).width / 3) 1 1 (by simpa using hu2),
        splitStep_launch [p1, p2, p3] env 0 ([s].getD 0 dScreen) 3
          (([s].getD 0 dScreen).width / 3) 2 2 (by simpa using hu3) ht3]
      simp [runReport, walkCollect, splitCollect]
    · obtain ⟨sa, sb, rfl⟩ := List.length_eq_two.mp h2
      have h01 : env.randoms 0 = 0 ∨ env.randoms 0 = 1 := by
        have := hr 0
        simp at this
        omega
      rcases h01 with h0 | h0
      · have hc : presentations_per_screen (List.length [sa, sb])
            (List.length [p1, p2, p3]) env.randoms = [2, 1] := by
          show presentations_per_screen 2 3 env.randoms = [2, 1]
          simp [presentations_per_screen, addExtras, h0]
        rw [launch_presentations_overflow [sa, sb] [p1, p2, p3] env
            (by simp) (by simp),
          hc, walkCollect_cons_ne [sa, sb] [p1, p2, p3] env 2 [1] 0 0 (by omega),
          splitCollect_succ, splitCollect_succ,
          splitStep_launch [p1, p2, p3] env 0 ([sa, sb].getD 0 dScreen) 2
            (([sa, sb].getD 0 dScreen).width / 2) 0 0 (by simpa using hu1) ht1,
          splitStep_empty [p1, p2, p3] env 0 ([sa, sb].getD 0 dScreen) 2
            (([sa, sb].getD 0 dScreen).width / 2) 1 1 (by simpa using hu2),
          walkCollect_cons_one,
          wholeStep_launch [sa, sb] [p1, p2, p3] env 1 2 (by simpa using hu3) ht3]
        simp [runReport, walkCollect, splitCollect]
      · have hc : presentations_per_screen (List.length [sa, sb])
            (List.length [p1, p2, p3]) env.randoms = [1, 2] := by
          show presentations_per_screen 2 3 env.randoms = [1, 2]
          simp [presentations_per_screen, addExtras, h0]
        rw [launch_presentations_overflow [sa, sb] [p1, p2, p3] env
            (by simp) (by simp),
          hc, walkCollect_cons_one,
          wholeStep_launch [sa, sb] [p1, p2, p3] env 0 0 (by simpa using hu1) ht1,
          walkCollect_cons_ne [sa, sb] [p1, p2, p3] env 2 [] 1 1 (by omega),
          splitCollect_succ, splitCollect_succ,
          splitStep_empty [p1, p2, p3] env 1 ([sa, sb].getD 1 dScreen) 2
            (([sa, sb].getD 1 dScreen).width / 2) 0 1 (by simpa using hu2),
          splitStep_launch [p1, p2, p3] env 1 ([sa, sb].getD 1 dScreen) 2
            (([sa, sb].getD 1 dScreen).width / 2) 1 2 (by simpa using hu3) ht3]
        simp [runReport, walkCollect, splitCollect]
  · rw [launch_presentations_simple screens [p1, p2, p3] env (by simp)
      (by simpa using hge),
      simpleCollect_cons, simpleCollect_cons, simpleCollect_cons,
      simpleStep_launch screens env 0 p1 hu1 ht1,
      simpleStep_empty screens env 1 p2 hu2,
      simpleStep_launch screens env 2 p3 hu3 ht3]
    simp [runReport, simpleCollect]

/-- C1: with zero detected screens (reachable: `_detect_screens` returns `[]`
on an unrecognized platform, line 30) and one presentation, the run does not
treat the screen count as 1 — it reaches `random.randint(0, -1)` in the
overflow loop (line 779), which raises `ValueError`, so no report is
produced. -/
theorem C1_zero_screens_value_error :
    launch_presentations [] [{ url := "http://a" }] envT
      = .error "ValueError: empty range for randrange()" := rfl

/-- C2 (amended): provided at least one screen was detected — which the
screen provider guarantees on Linux/macOS/Windows — `launch_presentations`
returns a report for every configuration input, never an exception. -/
theorem C2_returns_report (screens : List Screen) (pres : List Presentation)
    (env : Env) (hm : screens ≠ []) :
    ∃ out, launch_presentations screens pres env = .ok out := by
  have hm1 : 0 < screens.length := List.length_pos.mpr hm
  by_cases hn : pres.length = 0
  · obtain rfl : pres = [] := List.length_eq_zero.mp hn
    exact ⟨({ success := false, windows := [],
              errors := ["No presentations to launch"], screens := screens },
            []), rfl⟩
  · by_cases h2 : pres.length ≤ screens.length
    · exact ⟨_, launch_presentations_simple screens pres env hn h2⟩
    · exact ⟨_, launch_presentations_overflow screens pres env hm1 (by omega)⟩

/-- C2 as stated is false: on an empty screen list with one presentation the
run raises (models the uncaught `ValueError` from `random.randint(0, -1)`)
rather than returning a report with the failure in `errors`. -/
theorem C2_counterexample_zero_screens :
    launch_presentations [] [{ url := "http://b" }] envT
      = .error "ValueError: empty range for randrange()" := rfl

/-- C6: an empty presentation list gives `success = false`, exactly the error
`"No presentations to launch"`, no window entries and no launch calls, for
every screen list and environment. -/
theorem C6_empty_presentations (screens : List Screen) (env : Env) :
    launch_presentations screens [] env
      = .ok ({ success := false, windows := [],
               errors := ["No presentations to launch"], screens := screens },
             []) := rfl

/-- C9: in every report `launch_presentations` returns, `success` is true
exactly when `errors` is empty. -/
theorem C9_success_iff_errors_empty (screens : List Screen)
    (pres : List Presentation) (env : Env) (rep : Report)
    (h : runReport (launch_presentations screens pres env) = some rep) :
    rep.success = true ↔ rep.errors = [] := by
  by_cases hn : pres.length = 0
  · have he : launch_presentations screens pres env
        = .ok ({ success := false, windows := [],
                 errors := ["No presentations to launch"], screens := screens },
               []) := by
      unfold launch_presentations
      dsimp only
      rw [if_pos hn]
    rw [he] at h
    simp [runReport] at h
    rw [← h]
    simp
  · by_cases h2 : pres.length ≤ screens.length
    · rw [launch_presentations_simple screens pres env hn h2] at h
      simp [runReport] at h
      rw [← h]
      simp [List.isEmpty_iff]
    · by_cases hm : screens.length = 0
      · have he : launch_presentations screens pres env
            = .error "ValueError: empty range for randrange()" := by
          unfold launch_presentations
          dsimp only
          rw [if_neg hn, if_neg h2, if_pos hm]
        rw [he] at h
        simp [runReport] at h
      · rw [launch_presentations_overflow screens pres env (by omega)
          (by omega)] at h
        simp [runReport] at h
        rw [← h]
        simp [List.isEmpty_iff]

theorem lpw_hi (screens : List Screen) (sid : Int) (sp : Option Nat)
    (w x : Bool) (hm : 0 < screens.length)
    (hs : (screens.length : Int) ≤ sid) :
    launch_presentation_window screens sid sp w x
      = .ok (screens.getD 0 dScreen, sp) := by
  unfold launch_presentation_window
  rw [if_pos hs]
  dsimp only
  have hp : pyIndex screens (0 : Int) = screens.get? 0 := by
    simp [pyIndex]
  rw [hp, get?_eq_some_getD screens 0 dScreen hm]
  cases sp <;> simp [launch_linux]

/-- C7: a requested screen id at least the number of detected screens is
replaced by screen 0; the launcher resolves screen 0's rectangle and returns
the spawn outcome instead of failing. -/
theorem C7_fallback_to_screen_zero (screens : List Screen) (sid : Int)
    (sp : Option Nat) (w x : Bool) (hm : screens ≠ [])
    (hs : (screens.length : Int) ≤ sid) :
    launch_presentation_window screens sid sp w x
      = .ok (screens.getD 0 dScreen, sp) :=
  lpw_hi screens sid sp w x (List.length_pos.mpr hm) hs

/-- C8: for any non-negative screen id over a non-empty screen list, the
placement attempt returns exactly the `Popen` outcome as its pid — `some pid`
whenever the browser process started, `none` only when `Popen` raised —
independently of the wmctrl/xdotool positioning outcomes `w` and `x`. -/
theorem C8_pid_iff_spawned (screens : List Screen) (sid : Int)
    (sp : Option Nat) (w x : Bool) (hm : screens ≠ []) (h0 : 0 ≤ sid) :
    ∃ scr : Screen,
      launch_presentation_window screens sid sp w x = .ok (scr, sp) := by
  have hm1 : 0 < screens.length := List.length_pos.mpr hm
  by_cases hs : (screens.length : Int) ≤ sid
  · exact ⟨_, lpw_hi screens sid sp w x hm1 hs⟩
  · have hlt : sid.toNat < screens.length := by omega
    have hcast : ((sid.toNat : Nat) : Int) = sid := Int.toNat_of_nonneg h0
    have h := lpw_of_lt screens sid.toNat sp w x hlt
    rw [hcast] at h
    exact ⟨screens.getD sid.toNat dScreen, h⟩

theorem lpw_neg_in (screens : List Screen) (sid : Int) (sp : Option Nat)
    (w x : Bool) (hneg : sid < 0) (hge : -(screens.length : Int) ≤ sid) :
    launch_presentation_window screens sid sp w x
      = .ok (screens.getD ((screens.length : Int) + sid).toNat dScreen, sp) := by
  have hs : ¬ ((screens.length : Int) ≤ sid) := by omega
  unfold launch_presentation_window
  rw [if_neg hs]
  dsimp only
  unfold pyIndex
  dsimp only
  rw [if_pos hneg, if_pos (by omega : (0 : Int) ≤ (screens.length : Int) + sid)]
  have hlt : ((screens.length : Int) + sid).toNat < screens.length := by omega
  rw [get?_eq_some_getD screens _ dScreen hlt]
  cases sp <;> simp [launch_linux]

theorem lpw_neg_out (screens : List Screen) (sid : Int) (sp : Option Nat)
    (w x : Bool) (hlt : sid < -(screens.length : Int)) :
    launch_presentation_window screens sid sp w x = .error "IndexError" := by
  have hs : ¬ ((screens.length : Int) ≤ sid) := by omega
  unfold launch_presentation_window
  rw [if_neg hs]
  dsimp only
  unfold pyIndex
  dsimp only
  rw [if_pos (by omega : sid < 0),
    if_neg (by omega : ¬ (0 : Int) ≤ (screens.length : Int) + sid)]

/-- C10: the fallback at line 288 tests `screen_id >= len(screens)` only, so
a negative id bypasses it: ids in `[-m, -1]` select the screen at that Python
negative index (e.g. `-1` is the last screen, not screen 0), and an id below
`-m` makes the subscription at line 291 raise an uncaught IndexError instead
of returning None. -/
theorem C10_negative_screen_id (screens : List Screen) (sid : Int)
    (sp : Option Nat) (w x : Bool) (hneg : sid < 0) :
    (-(screens.length : Int) ≤ sid →
       launch_presentation_window screens sid sp w x
         = .ok (screens.getD ((screens.length : Int) + sid).toNat dScreen, sp))
    ∧ (sid < -(screens.length : Int) →
       launch_presentation_window screens sid sp w x
         = .error "IndexError") :=
  ⟨fun hge => lpw_neg_in screens sid sp w x hneg hge,
   fun hlt => lpw_neg_out screens sid sp w x hlt⟩

/-- Witness for C2 (amended): one screen, one presentation. -/
theorem C2_returns_report_witness :
    ∃ out, launch_presentations [scrA] [presA] envT = .ok out :=
  C2_returns_report [scrA] [presA] envT (by simp)

/-- Witness for C3: two screens, two presentations; request 1 goes to screen
`1 mod 2 = 1` whole. -/
theorem C3_witness :
    (runTrace (launch_presentations [scrA, scrB] [presA, presB] envT)).filter
        (fun ev => ev.reqIndex == 1)
      = [LaunchEvent.window 1 "http://b" 1 "chrome" scrB] := by
  have h := C3_round_robin_full_screen [scrA, scrB] [presA, presB] envT
    (by decide) (by decide) 1 (by decide) (by decide)
  rw [h]
  decide

/-- Witness for C4 (the spec's scenario): 2 requests on one 1920x1080 screen
at the origin land as two 960-wide slices at `x = 0` and `x = 960`, `y = 0`,
`height = 1080`. -/
theorem C4_witness :
    LaunchEvent.windowAt 0 "http://a" 0 0 960 1080 "chrome"
        ∈ runTrace (launch_presentations [scrA] [presA, presB] envT)
    ∧ LaunchEvent.windowAt 1 "http://b" 960 0 960 1080 "chrome"
        ∈ runTrace (launch_presentations [scrA] [presA, presB] envT) := by
  have h0 := C4_split_geometry [scrA] [presA, presB] envT 0 0 2 0 960
    (by decide) (by decide) (by decide) (by decide) (by decide) (by decide)
    (by decide) (by decide) (by decide)
  have h1 := C4_split_geometry [scrA] [presA, presB] envT 0 1 2 0 960
    (by decide) (by decide) (by decide) (by decide) (by decide) (by decide)
    (by decide) (by decide) (by decide)
  exact ⟨h0, h1⟩

/-- Witness for C5: three screens, second request url empty. -/
theorem C5_witness :
    (runReport (launch_presentations [scrA, scrB, scrB]
        [presA, presEmpty, presB] envT)).map
        (fun rep => (rep.success, rep.errors, rep.windows.map (fun w => w.url)))
      = some (false, ["Missing URL in presentation config"],
              ["http://a", "http://b"]) := by
  have h := C5_error_accumulation [scrA, scrB, scrB] envT presA presEmpty presB
    (by simp) (fun kk => by simp [envT]) (by decide) (by decide) (by decide)
    (by decide) (by decide)
  exact h

/-- Witness for C7: screen id 5 over 2 screens resolves screen 0. -/
theorem C7_witness :
    launch_presentation_window [scrA, scrB] 5 (some 7) true false
      = .ok (scrA, some 7) := by
  have h := C7_fallback_to_screen_zero [scrA, scrB] 5 (some 7) true false
    (by simp) (by decide)
  exact h

/-- Witness for C8: `Popen` raising gives pid `None` even though both
positioning chains differ. -/
theorem C8_witness :
    ∃ scr, launch_presentation_window [scrA, scrB] 1 none false true
      = .ok (scr, none) :=
  C8_pid_iff_spawned [scrA, scrB] 1 none false true (by simp) (by decide)

/-- Witness for C9: the empty-request report has `success = false` and a
non-empty error list. -/
theorem C9_witness :
    (({ success := false, windows := [],
        errors := ["No presentations to launch"],
        screens := [scrA] } : Report).success = true
      ↔ ({ success := false, windows := [],
           errors := ["No presentations to launch"],
           screens := [scrA] } : Report).errors = []) :=
  C9_success_iff_errors_empty [scrA] [] envT _ rfl

/-- Witness for C10: over two screens, id `-1` targets the last screen
(`scrB`, not screen 0) and id `-3` raises IndexError. -/
theorem C10_witness :
    launch_presentation_window [scrA, scrB] (-1) (some 7) false false
      = .ok (scrB, some 7)
    ∧ launch_presentation_window [scrA, scrB] (-3) (some 7) false false
      = .error "IndexError" := by
  have h1 := C10_negative_screen_id [scrA, scrB] (-1) (some 7) false false
    (by decide)
  have h3 := C10_negative_screen_id [scrA, scrB] (-3) (some 7) false false
    (by decide)
  exact ⟨h1.1 (by decide), h3.2 (by decide)⟩
